import Mathlib

/-
  CarbonSense — a shallow embedding of the data-generation and ESG-aggregation
  pipeline of src/app.py, together with proofs of the specified properties.

  Modelling conventions:
  * Python/pandas floating-point quantities are modelled as rational numbers
    (hence arithmetic identities hold exactly, as the specification intends).
  * Timestamps are minutes since an arbitrary epoch (a natural number); the
    calendar date of a timestamp is its day index, its hour is minutes/60 mod 24.
  * The ambient pseudo-random source consumed by numpy is made explicit: an
    Env record supplies, for every (asset name, timestamp) site, the raw draw
    used there.  Draws feeding np.random.uniform(lo, hi) are raw numbers in
    [0, 1] (Env.valid) mapped affinely onto [lo, hi]; the draw feeding
    np.random.normal(0, 50) is passed through unconstrained, matching the
    unbounded support of the normal distribution.
  * np.sin applied to (hour / 24 * 2 * pi) is a fixed transcendental function
    of the hour; it is modelled as a parameter sinf : hour -> rational about
    which theorems assume only |sinf h| <= 1, the property of the sine that
    the code relies on.
  * Float division performed by pandas/numpy on aggregated columns never
    raises: a zero denominator yields NaN (for 0/0) or a signed infinity.
    The PFloat type reifies exactly these outcomes.
-/

set_option maxRecDepth 8192

namespace CarbonSense

/-- One row of the generated operational ReadingTable (src/app.py lines 63-74). -/
structure Reading where
  timestamp : ℕ
  asset_name : String
  asset_type : String
  capacity : ℚ
  generation_mw : ℚ
  fuel_consumed_tonnes : ℚ
  coal_calorific_value_kcal : ℚ
  emissions_co2_tonnes : ℚ
  water_withdrawal_cum : ℚ
  operating_efficiency : ℚ
deriving DecidableEq, Repr

/-- Result of an IEEE-754 float division as pandas/numpy performs it on a
summed column: a finite value, NaN (from 0/0) or a signed infinity (from
x/0 with x nonzero).  No exception is raised. -/
inductive PFloat where
  | val : ℚ → PFloat
  | nan : PFloat
  | inf : PFloat
  | ninf : PFloat
deriving DecidableEq, BEq, Repr

/-- Float division of column sums (numerator w, denominator g): finite when
g is nonzero, otherwise the NaN/infinity marker, never an exception. -/
def fdiv (w g : ℚ) : PFloat :=
  if g = 0 then
    (if w = 0 then PFloat.nan else if 0 < w then PFloat.inf else PFloat.ninf)
  else PFloat.val (w / g)

/-- True exactly on finite float values; NaN and the infinities are the
undefined-division markers. -/
def PFloat.isFinite : PFloat → Bool
  | PFloat.val _ => true
  | _ => false

/-- pandas Series.mean over a float column (default skipna): NaN entries are
skipped, infinities propagate (opposite infinities give NaN), the mean of an
empty or all-NaN column is NaN. -/
def pmean (l : List PFloat) : PFloat :=
  if l.contains PFloat.inf && l.contains PFloat.ninf then PFloat.nan
  else if l.contains PFloat.inf then PFloat.inf
  else if l.contains PFloat.ninf then PFloat.ninf
  else
    let vs := l.filterMap (fun x => match x with | PFloat.val q => some q | _ => none)
    if vs.length = 0 then PFloat.nan else PFloat.val (vs.sum / (vs.length : ℚ))

/-- Static reference entity of the asset registry (src/app.py lines 15-20). -/
structure Asset where
  name : String
  type : String
  capacity : ℚ
  location : String
deriving DecidableEq, Repr

/-- Registry entry Barmer Thermal (thermal, 1320 MW, Rajasthan). -/
def barmer : Asset := ⟨"Barmer Thermal", "thermal", 1320, "Rajasthan"⟩

/-- Registry entry Karnataka Solar (solar, 500 MW, Karnataka). -/
def karnataka : Asset := ⟨"Karnataka Solar", "solar", 500, "Karnataka"⟩

/-- Registry entry Maharashtra Wind (wind, 300 MW, Maharashtra). -/
def maharashtra : Asset := ⟨"Maharashtra Wind", "wind", 300, "Maharashtra"⟩

/-- Registry entry Himachal Hydro (hydro, 240 MW, Himachal Pradesh). -/
def himachal : Asset := ⟨"Himachal Hydro", "hydro", 240, "Himachal Pradesh"⟩

/-- The fixed asset registry ASSETS of src/app.py lines 15-20, in source order. -/
def ASSETS : List Asset := [barmer, karnataka, maharashtra, himachal]

/-- The explicit pseudo-random environment: for every (asset name, timestamp)
site, the raw draws consumed by the row generated there.  u feeds the
generation-pattern uniform draw, hr the normal(0,50) heat-rate offset,
cv the calorific-value uniform draw, wd the water-withdrawal uniform draw,
eff the operating-efficiency uniform draw. -/
structure Env where
  u : String → ℕ → ℚ
  hr : String → ℕ → ℚ
  cv : String → ℕ → ℚ
  wd : String → ℕ → ℚ
  eff : String → ℕ → ℚ

/-- Raw draws feeding np.random.uniform lie in [0, 1]; the normal draw hr is
unconstrained (unbounded support). -/
def Env.valid (e : Env) : Prop :=
  ∀ n t, (0 ≤ e.u n t ∧ e.u n t ≤ 1) ∧ (0 ≤ e.cv n t ∧ e.cv n t ≤ 1) ∧
    (0 ≤ e.wd n t ∧ e.wd n t ≤ 1) ∧ (0 ≤ e.eff n t ∧ e.eff n t ≤ 1)

/-- np.random.uniform(lo, hi) realised from a raw draw r in [0, 1]. -/
def uniform (lo hi r : ℚ) : ℚ := lo + (hi - lo) * r

/-- Python round(x, 2): rounding to two decimal places. -/
def round2 (x : ℚ) : ℚ := ((round (100 * x) : ℤ) : ℚ) / 100

/-- Hour of a timestamp given in minutes since the epoch. -/
def hourOf (ts : ℕ) : ℕ := ts / 60 % 24

/-- Calendar date (day index) of a timestamp given in minutes since the epoch;
models pandas .dt.date. -/
def tsDate (ts : ℕ) : ℕ := ts / 1440

/-- Generation in MW for one asset at one timestamp (src/app.py lines 40-51):
base load is capacity * 0.75 and the asset-type-specific shape and uniform
multiplier are applied on top. -/
def generationOf (sinf : ℕ → ℚ) (env : Env) (a : Asset) (ts : ℕ) : ℚ :=
  let base_load : ℚ := a.capacity * 0.75
  if a.type = "solar" then
    base_load * max 0 (-(0.1) * ((hourOf ts : ℚ) - 12) ^ 2 + 1)
      * uniform 0.9 1.1 (env.u a.name ts)
  else if a.type = "wind" then
    base_load * uniform 0.3 1 (env.u a.name ts) * (1 + 0.1 * sinf (hourOf ts))
  else if a.type = "hydro" then
    base_load * uniform 0.5 1 (env.u a.name ts)
  else
    base_load * uniform 0.85 1.05 (env.u a.name ts)

/-- One generated reading row (src/app.py lines 40-74): thermal-only derived
fuel/calorific/emission fields are zero for every other asset type; all
stored physical outputs are rounded to 2 decimals except the calorific
value, exactly as in the source. -/
def mkReading (sinf : ℕ → ℚ) (env : Env) (a : Asset) (ts : ℕ) : Reading :=
  let generation := generationOf sinf env a ts
  let heat_rate : ℚ := 2500 + env.hr a.name ts
  let fuel_consumed : ℚ := if a.type = "thermal" then generation * heat_rate / 1000 else 0
  let coal_calorific_value : ℚ :=
    if a.type = "thermal" then 3800 + uniform (-100) 100 (env.cv a.name ts) else 0
  let emissions_co2 : ℚ := if a.type = "thermal" then fuel_consumed * 2.5 else 0
  { timestamp := ts
    asset_name := a.name
    asset_type := a.type
    capacity := a.capacity
    generation_mw := round2 generation
    fuel_consumed_tonnes := round2 fuel_consumed
    coal_calorific_value_kcal := coal_calorific_value
    emissions_co2_tonnes := round2 emissions_co2
    water_withdrawal_cum := round2 (uniform 50 150 (env.wd a.name ts) * generation / 1000)
    operating_efficiency := round2 (uniform 85 95 (env.eff a.name ts)) }

/-- pd.date_range(now - 7 days, now, freq 15min): 673 timestamps, both ends
inclusive, 15-minute step (in minutes: 7 days = 10080). -/
def timestamps (now : ℕ) : List ℕ :=
  (List.range 673).map (fun k => now - 10080 + 15 * k)

/-- DataGenerator._generate_operational_data: one row per asset per 15-minute
timestamp of the trailing 7-day window, in registry order. -/
def operational_data (sinf : ℕ → ℚ) (env : Env) (now : ℕ) : List Reading :=
  (ASSETS.map (fun a => (timestamps now).map (mkReading sinf env a))).flatten

/-- One row of the aggregate returned by calculate_scope1_emissions: the
groupby date key and the three summed columns. -/
structure Scope1Row where
  date : ℕ
  generation_mw : ℚ
  fuel_consumed_tonnes : ℚ
  emissions_co2_tonnes : ℚ
deriving DecidableEq, Repr

/-- The optional asset_name filter as the source applies it: Python truthiness
means both None and the empty string leave the table unfiltered. -/
def applyFilter (filt : Option String) (df : List Reading) : List Reading :=
  match filt with
  | none => df
  | some n => if n = "" then df else df.filter (fun r => r.asset_name = n)

/-- Whether a row survives the asset_name filter (None and the falsy empty
string pass everything). -/
def passesFilter (filt : Option String) (r : Reading) : Prop :=
  match filt with
  | none => True
  | some n => n = "" ∨ r.asset_name = n

instance (filt : Option String) (r : Reading) : Decidable (passesFilter filt r) := by
  unfold passesFilter
  cases filt <;> infer_instance

/-- The thermal-type rows of the (optionally name-filtered) table, the set
calculate_scope1_emissions aggregates over. -/
def thermalRows (df : List Reading) (filt : Option String) : List Reading :=
  (applyFilter filt df).filter (fun r => r.asset_type = "thermal")

/-- The distinct group keys of the scope-1 groupby, in ascending date order
(pandas groupby sorts keys by default). -/
def scope1Keys (df : List Reading) (filt : Option String) : List ℕ :=
  List.insertionSort (· ≤ ·) ((thermalRows df filt).map (fun r => tsDate r.timestamp)).dedup

/-- The rows of one scope-1 date group. -/
def scope1Group (df : List Reading) (filt : Option String) (d : ℕ) : List Reading :=
  (thermalRows df filt).filter (fun r => tsDate r.timestamp = d)

/-- ESGCalculator.calculate_scope1_emissions (src/app.py lines 101-112):
restrict to thermal rows (optionally filtered by asset name), group by
calendar date, and sum generation, fuel and CO2 emissions per date. -/
def calculate_scope1_emissions (df : List Reading) (filt : Option String) : List Scope1Row :=
  (scope1Keys df filt).map (fun d =>
    { date := d
      generation_mw := ((scope1Group df filt d).map (fun r => r.generation_mw)).sum
      fuel_consumed_tonnes := ((scope1Group df filt d).map (fun r => r.fuel_consumed_tonnes)).sum
      emissions_co2_tonnes := ((scope1Group df filt d).map (fun r => r.emissions_co2_tonnes)).sum })

/-- One row of the aggregate returned by calculate_water_intensity. -/
structure WaterRow where
  date : ℕ
  asset_name : String
  generation_mw : ℚ
  water_withdrawal_cum : ℚ
  water_intensity : PFloat
deriving DecidableEq, Repr

/-- Lexicographic order on the (date, asset name) groupby keys. -/
def pairLe (x y : ℕ × String) : Prop :=
  x.1 < y.1 ∨ (x.1 = y.1 ∧ x.2 ≤ y.2)

instance : DecidableRel pairLe := fun x y => by
  unfold pairLe
  infer_instance

/-- The distinct (date, asset name) group keys of the water-intensity groupby,
sorted as pandas sorts them. -/
def waterKeys (df : List Reading) : List (ℕ × String) :=
  List.insertionSort pairLe (df.map (fun r => (tsDate r.timestamp, r.asset_name))).dedup

/-- The rows of one (date, asset name) water-intensity group. -/
def waterGroup (df : List Reading) (k : ℕ × String) : List Reading :=
  df.filter (fun r => tsDate r.timestamp = k.1 ∧ r.asset_name = k.2)

/-- ESGCalculator.calculate_water_intensity (src/app.py lines 114-122): group
ALL rows by (date, asset name), sum generation and water withdrawal per
group, and divide the sums; the division is the float division of pandas,
so a zero-generation group yields a NaN/infinity marker, not an exception. -/
def calculate_water_intensity (df : List Reading) : List WaterRow :=
  (waterKeys df).map (fun k =>
    { date := k.1
      asset_name := k.2
      generation_mw := ((waterGroup df k).map (fun r => r.generation_mw)).sum
      water_withdrawal_cum := ((waterGroup df k).map (fun r => r.water_withdrawal_cum)).sum
      water_intensity := fdiv ((waterGroup df k).map (fun r => r.water_withdrawal_cum)).sum
        ((waterGroup df k).map (fun r => r.generation_mw)).sum })

/-- Whether pat occurs as a contiguous sublist. -/
def charsContain (pat : List Char) : List Char → Bool
  | [] => pat.isEmpty
  | c :: t => pat.isPrefixOf (c :: t) || charsContain pat t

/-- Substring containment on strings. -/
def containsSub (s pat : String) : Bool := charsContain pat.data s.data

/-- The str.contains regex test of src/app.py line 136, whose pattern is an
alternation of the three literal substrings Solar, Wind, Hydro:
an alternation of three literal substrings, matched against asset names. -/
def isRenewableName (s : String) : Bool :=
  containsSub s "Solar" || containsSub s "Wind" || containsSub s "Hydro"

/-- The BRSR disclosure record of src/app.py lines 129-138.  The
data_quality_score field is np.random.uniform(95, 100), a fresh ambient
random draw on every call; it enters here as the explicit argument dq. -/
structure BRSRReport where
  reporting_period : String
  scope1_total : ℚ
  energy_total : ℚ
  emission_intensity : PFloat
  water_total : ℚ
  water_intensity_mean : PFloat
  renewable_pct : ℚ
  data_quality_score : ℚ
deriving DecidableEq, Repr

/-- ESGCalculator.generate_brsr_report (src/app.py lines 124-140).  The
emission-intensity division is numpy float division (fdiv); the
renewable-percentage division is Python integer/ division, which raises
ZeroDivisionError when the water aggregate is empty — modelled by none. -/
def generate_brsr_report (df : List Reading) (reporting_period : String) (dq : ℚ) :
    Option BRSRReport :=
  let scope1 := calculate_scope1_emissions df none
  let water := calculate_water_intensity df
  if water.length = 0 then none
  else some
    { reporting_period := reporting_period
      scope1_total := (scope1.map (fun row => row.emissions_co2_tonnes)).sum
      energy_total := (scope1.map (fun row => row.generation_mw)).sum
      emission_intensity :=
        fdiv ((scope1.map (fun row => row.emissions_co2_tonnes)).sum * 1000)
          ((scope1.map (fun row => row.generation_mw)).sum)
      water_total := (water.map (fun w => w.water_withdrawal_cum)).sum
      water_intensity_mean := pmean (water.map (fun w => w.water_intensity))
      renewable_pct :=
        ((water.filter (fun w => isRenewableName w.asset_name)).length : ℚ)
          / (water.length : ℚ) * 100
      data_quality_score := dq }

/-- All fields of a BRSR report except the random data_quality_score. -/
def BRSRReport.core (r : BRSRReport) : String × ℚ × ℚ × PFloat × ℚ × PFloat × ℚ :=
  ⟨r.reporting_period, r.scope1_total, r.energy_total, r.emission_intensity,
    r.water_total, r.water_intensity_mean, r.renewable_pct⟩

/-- A zero environment: every raw draw is 0 (a valid draw for every uniform). -/
def env0 : Env := ⟨fun _ _ => 0, fun _ _ => 0, fun _ _ => 0, fun _ _ => 0, fun _ _ => 0⟩

/-- An environment differing from env0 only in the generation draw. -/
def env1 : Env := { env0 with u := fun _ _ => 1 }

/-- A sine stand-in satisfying the |sinf| <= 1 bound. -/
def sinf0 : ℕ → ℚ := fun _ => 0

/-- A one-row non-thermal table with zero generation and nonzero withdrawal,
exercising the zero-denominator bucket of the water-intensity division. -/
def wrow : Reading :=
  { timestamp := 0
    asset_name := "A"
    asset_type := "solar"
    capacity := 1
    generation_mw := 0
    fuel_consumed_tonnes := 0
    coal_calorific_value_kcal := 0
    emissions_co2_tonnes := 0
    water_withdrawal_cum := 5
    operating_efficiency := 90 }

/-- The singleton table holding wrow. -/
def tblA : List Reading := [wrow]

/-- A one-row thermal table with simple concrete values. -/
def trow : Reading :=
  { timestamp := 0
    asset_name := "Barmer Thermal"
    asset_type := "thermal"
    capacity := 1320
    generation_mw := 100
    fuel_consumed_tonnes := 250
    coal_calorific_value_kcal := 3800
    emissions_co2_tonnes := 625
    water_withdrawal_cum := 10
    operating_efficiency := 90 }

/-- The singleton table holding trow. -/
def tblB : List Reading := [trow]

lemma mem_applyFilter {filt : Option String} {df : List Reading} {r : Reading} :
    r ∈ applyFilter filt df ↔ r ∈ df ∧ passesFilter filt r := by
  cases filt with
  | none => simp [applyFilter, passesFilter]
  | some n =>
    by_cases h : n = "" <;> simp [applyFilter, passesFilter, h]

lemma mem_thermalRows {df : List Reading} {filt : Option String} {r : Reading} :
    r ∈ thermalRows df filt ↔ r ∈ df ∧ passesFilter filt r ∧ r.asset_type = "thermal" := by
  simp [thermalRows, List.mem_filter, mem_applyFilter, and_assoc]

lemma mem_scope1Keys {df : List Reading} {filt : Option String} {d : ℕ} :
    d ∈ scope1Keys df filt ↔ ∃ r ∈ thermalRows df filt, tsDate r.timestamp = d := by
  unfold scope1Keys
  rw [(List.perm_insertionSort _ _).mem_iff, List.mem_dedup, List.mem_map]

lemma nodup_scope1Keys {df : List Reading} {filt : Option String} :
    (scope1Keys df filt).Nodup :=
  (List.perm_insertionSort _ _).nodup_iff.mpr (List.nodup_dedup _)

lemma sorted_scope1Keys {df : List Reading} {filt : Option String} :
    (scope1Keys df filt).Sorted (· ≤ ·) :=
  List.sorted_insertionSort _ _

lemma sorted_lt_of_le_nodup {l : List ℕ} (hs : l.Sorted (· ≤ ·)) (hn : l.Nodup) :
    l.Sorted (· < ·) :=
  (hs.and hn).imp (fun h => lt_of_le_of_ne h.1 h.2)

lemma scope1_map_date {df : List Reading} {filt : Option String} :
    (calculate_scope1_emissions df filt).map (fun row => row.date) = scope1Keys df filt := by
  unfold calculate_scope1_emissions
  rw [List.map_map]
  exact List.map_id _

lemma sum_map_filter_add {α : Type} (l : List α) (p : α → Prop) [DecidablePred p] (f : α → ℚ) :
    ((l.filter (fun a => p a)).map f).sum + ((l.filter (fun a => ¬ p a)).map f).sum
      = (l.map f).sum := by
  induction l with
  | nil => simp
  | cons a t ih =>
    simp only [decide_not] at ih
    by_cases h : p a
    · simp [List.filter_cons, h, decide_not]
      linarith
    · simp [List.filter_cons, h, decide_not]
      linarith

lemma sum_over_groups {α κ : Type} [DecidableEq κ] (keys : List κ) (l : List α)
    (key : α → κ) (f : α → ℚ) (hnd : keys.Nodup) (hcov : ∀ a ∈ l, key a ∈ keys) :
    (keys.map (fun d => ((l.filter (fun a => key a = d)).map f).sum)).sum = (l.map f).sum := by
  induction keys generalizing l with
  | nil =>
    cases l with
    | nil => simp
    | cons a t => exact absurd (hcov a (List.mem_cons_self a t)) (List.not_mem_nil _)
  | cons d ds ih =>
    have hd : d ∉ ds := (List.nodup_cons.mp hnd).1
    have hnd' : ds.Nodup := (List.nodup_cons.mp hnd).2
    have hmapeq : ds.map (fun e => ((l.filter (fun a => key a = e)).map f).sum)
        = ds.map (fun e =>
            (((l.filter (fun a => ¬ key a = d)).filter (fun a => key a = e)).map f).sum) := by
      apply List.map_congr_left
      intro e he
      have hfe : (l.filter (fun a => ¬ key a = d)).filter (fun a => key a = e)
          = l.filter (fun a => key a = e) := by
        rw [List.filter_filter]
        apply List.filter_congr
        intro a _
        by_cases hk : key a = e
        · have hed : ¬ e = d := fun hh => hd (hh ▸ he)
          have hne : ¬ key a = d := by
            rw [hk]
            exact hed
          simp [hk, hne, hed]
        · simp [hk]
      rw [hfe]
    have hcov' : ∀ a ∈ l.filter (fun a => ¬ key a = d), key a ∈ ds := by
      intro a ha
      have hal : a ∈ l := (List.mem_filter.mp ha).1
      have hnd2 : ¬ key a = d := by
        have := (List.mem_filter.mp ha).2
        simpa using this
      rcases List.mem_cons.mp (hcov a hal) with h | h
      · exact absurd h hnd2
      · exact h
    have hsplit := sum_map_filter_add l (fun a => key a = d) f
    calc ((d :: ds).map (fun e => ((l.filter (fun a => key a = e)).map f).sum)).sum
        = ((l.filter (fun a => key a = d)).map f).sum
            + (ds.map (fun e => ((l.filter (fun a => key a = e)).map f).sum)).sum := by
          simp
      _ = ((l.filter (fun a => key a = d)).map f).sum
            + ((l.filter (fun a => ¬ key a = d)).map f).sum := by
          rw [hmapeq, ih (l.filter (fun a => ¬ key a = d)) hnd' hcov']
      _ = (l.map f).sum := hsplit

lemma round2_nonneg {x : ℚ} (h : 0 ≤ x) : 0 ≤ round2 x := by
  unfold round2
  have h1 : (0:ℤ) ≤ round (100 * x) := by
    rw [round_eq]
    have h2 : (0:ℤ) = ⌊(1/2 : ℚ)⌋ := by norm_num
    rw [h2]
    exact Int.floor_le_floor (by linarith)
  have h3 : (0:ℚ) ≤ ((round (100 * x) : ℤ) : ℚ) := by exact_mod_cast h1
  linarith

lemma round2_le_add {x : ℚ} : round2 x ≤ x + 1/200 := by
  unfold round2
  rw [round_eq]
  have h : ((⌊100 * x + 1/2⌋ : ℤ) : ℚ) ≤ 100 * x + 1/2 := Int.floor_le _
  linarith

lemma sub_le_round2 {x : ℚ} : x - 1/200 ≤ round2 x := by
  unfold round2
  rw [round_eq]
  have h : 100 * x + 1/2 < ((⌊100 * x + 1/2⌋ : ℤ) : ℚ) + 1 := Int.lt_floor_add_one _
  linarith

lemma mem_operational_data {sinf : ℕ → ℚ} {env : Env} {now : ℕ} {r : Reading} :
    r ∈ operational_data sinf env now
      ↔ ∃ a ∈ ASSETS, ∃ ts ∈ timestamps now, r = mkReading sinf env a ts := by
  simp only [operational_data, List.mem_flatten, List.mem_map]
  constructor
  · rintro ⟨l, ⟨a, ha, rfl⟩, hr⟩
    obtain ⟨ts, hts, rfl⟩ := List.mem_map.mp hr
    exact ⟨a, ha, ts, hts, rfl⟩
  · rintro ⟨a, ha, ts, hts, rfl⟩
    exact ⟨(timestamps now).map (mkReading sinf env a), ⟨a, ha, rfl⟩,
      List.mem_map_of_mem _ hts⟩

lemma uniform_bounds (lo hi : ℚ) {r : ℚ} (h0 : 0 ≤ r) (h1 : r ≤ 1) (hlh : lo ≤ hi) :
    lo ≤ uniform lo hi r ∧ uniform lo hi r ≤ hi := by
  unfold uniform
  constructor <;> nlinarith

lemma asset_capacity_ge : ∀ a ∈ ASSETS, (1:ℚ) ≤ a.capacity := by
  intro a ha
  simp only [ASSETS, List.mem_cons, List.not_mem_nil, or_false] at ha
  rcases ha with rfl | rfl | rfl | rfl <;>
    norm_num [barmer, karnataka, maharashtra, himachal]

lemma prod3_le {b q u Q U : ℚ} (hb : 0 ≤ b) (hq0 : 0 ≤ q) (hq : q ≤ Q) (hu0 : 0 ≤ u)
    (hu : u ≤ U) : b * q * u ≤ b * Q * U := by
  have hQ : 0 ≤ Q := le_trans hq0 hq
  have h1 : b * q ≤ b * Q := mul_le_mul_of_nonneg_left hq hb
  have h2 : b * q * u ≤ b * Q * u := mul_le_mul_of_nonneg_right h1 hu0
  have h3 : b * Q * u ≤ b * Q * U := mul_le_mul_of_nonneg_left hu (mul_nonneg hb hQ)
  linarith

lemma generationOf_bounds (sinf : ℕ → ℚ) (env : Env) (a : Asset) (ts : ℕ)
    (hs : ∀ x, |sinf x| ≤ 1) (he : Env.valid env) (hcap : 0 ≤ a.capacity) :
    0 ≤ generationOf sinf env a ts ∧ generationOf sinf env a ts ≤ a.capacity * (33/40) := by
  obtain ⟨⟨hu0, hu1⟩, -⟩ := he a.name ts
  have hsin := abs_le.mp (hs (hourOf ts))
  have hbase : (0:ℚ) ≤ a.capacity * 0.75 := by nlinarith
  unfold generationOf
  dsimp only
  split_ifs with h1 h2 h3
  · have hq0 : (0:ℚ) ≤ max 0 (-(0.1) * ((hourOf ts : ℚ) - 12) ^ 2 + 1) := le_max_left _ _
    have hq1 : max 0 (-(0.1) * ((hourOf ts : ℚ) - 12) ^ 2 + 1) ≤ 1 := by
      apply max_le (by norm_num)
      nlinarith [sq_nonneg ((hourOf ts : ℚ) - 12)]
    have hu := uniform_bounds 0.9 1.1 hu0 hu1 (by norm_num)
    constructor
    · exact mul_nonneg (mul_nonneg hbase hq0) (by linarith [hu.1])
    · calc a.capacity * 0.75 * max 0 (-(0.1) * ((hourOf ts : ℚ) - 12) ^ 2 + 1)
            * uniform 0.9 1.1 (env.u a.name ts)
          ≤ a.capacity * 0.75 * 1 * 1.1 :=
            prod3_le hbase hq0 hq1 (by linarith [hu.1]) hu.2
        _ = a.capacity * (33/40) := by ring
  · have hu := uniform_bounds 0.3 1 hu0 hu1 (by norm_num)
    have hw0 : (0:ℚ) ≤ 1 + 0.1 * sinf (hourOf ts) := by linarith [hsin.1]
    have hw1 : 1 + 0.1 * sinf (hourOf ts) ≤ 1.1 := by linarith [hsin.2]
    constructor
    · exact mul_nonneg (mul_nonneg hbase (by linarith [hu.1])) hw0
    · calc a.capacity * 0.75 * uniform 0.3 1 (env.u a.name ts) * (1 + 0.1 * sinf (hourOf ts))
          ≤ a.capacity * 0.75 * 1 * 1.1 :=
            prod3_le hbase (by linarith [hu.1]) hu.2 hw0 hw1
        _ = a.capacity * (33/40) := by ring
  · have hu := uniform_bounds 0.5 1 hu0 hu1 (by norm_num)
    constructor
    · exact mul_nonneg hbase (by linarith [hu.1])
    · have h4 : a.capacity * 0.75 * uniform 0.5 1 (env.u a.name ts)
          ≤ a.capacity * 0.75 * 1 := mul_le_mul_of_nonneg_left hu.2 hbase
      nlinarith
  · have hu := uniform_bounds 0.85 1.05 hu0 hu1 (by norm_num)
    constructor
    · exact mul_nonneg hbase (by linarith [hu.1])
    · have h4 : a.capacity * 0.75 * uniform 0.85 1.05 (env.u a.name ts)
          ≤ a.capacity * 0.75 * 1.05 := mul_le_mul_of_nonneg_left hu.2 hbase
      nlinarith

lemma generationOf_thermal_lb (sinf : ℕ → ℚ) (env : Env) (a : Asset) (ts : ℕ)
    (he : Env.valid env) (hth : a.type = "thermal") (hcap : 0 ≤ a.capacity) :
    0.85 * (0.75 * a.capacity) ≤ generationOf sinf env a ts := by
  obtain ⟨⟨hu0, hu1⟩, -⟩ := he a.name ts
  unfold generationOf
  dsimp only
  rw [hth]
  rw [if_neg (by decide), if_neg (by decide), if_neg (by decide)]
  unfold uniform
  nlinarith [mul_nonneg hcap hu0]

lemma karnataka_mem_opdata :
    mkReading sinf0 env0 karnataka 9920 ∈ operational_data sinf0 env0 20000 := by
  apply mem_operational_data.mpr
  refine ⟨karnataka, ?_, 9920, ?_, rfl⟩
  · simp [ASSETS]
  · unfold timestamps
    have h : (9920 : ℕ) = 20000 - 10080 + 15 * 0 := by norm_num
    rw [h]
    exact List.mem_map_of_mem _ (List.mem_range.mpr (by norm_num))

/-- C1: in every table produced by the generator, a row whose asset type is
not thermal has fuel consumed, calorific value and CO2 emissions all exactly
zero — for every asset, every timestamp of the window and every random
draw. -/
theorem spec_C1_nonthermal_zero_fields (sinf : ℕ → ℚ) (env : Env) (now : ℕ) (r : Reading)
    (hr : r ∈ operational_data sinf env now) (hnt : r.asset_type ≠ "thermal") :
    r.fuel_consumed_tonnes = 0 ∧ r.coal_calorific_value_kcal = 0 ∧
      r.emissions_co2_tonnes = 0 := by
  obtain ⟨a, ha, ts, hts, rfl⟩ := mem_operational_data.mp hr
  have hat : ¬ a.type = "thermal" := by
    simpa [mkReading] using hnt
  simp [mkReading, hat, round2]

/-- Witness for C1 at a concrete solar row of a concretely generated table. -/
theorem spec_C1_witness :
    (mkReading sinf0 env0 karnataka 9920).fuel_consumed_tonnes = 0 ∧
    (mkReading sinf0 env0 karnataka 9920).coal_calorific_value_kcal = 0 ∧
    (mkReading sinf0 env0 karnataka 9920).emissions_co2_tonnes = 0 :=
  spec_C1_nonthermal_zero_fields sinf0 env0 20000 _ karnataka_mem_opdata
    (by simp [mkReading, karnataka])

/-- C8: every generated reading has generation at least 0 and at most 1.2
times the rated capacity carried by the row, for all four asset types and
all draws of the random environment. -/
theorem spec_C8_generation_bounds (sinf : ℕ → ℚ) (env : Env) (now : ℕ)
    (hs : ∀ x, |sinf x| ≤ 1) (he : Env.valid env) :
    ∀ r ∈ operational_data sinf env now,
      0 ≤ r.generation_mw ∧ r.generation_mw ≤ 1.2 * r.capacity := by
  intro r hr
  obtain ⟨a, ha, ts, hts, rfl⟩ := mem_operational_data.mp hr
  have hcap1 : (1:ℚ) ≤ a.capacity := asset_capacity_ge a ha
  have hb := generationOf_bounds sinf env a ts hs he (by linarith)
  have hgen : (mkReading sinf env a ts).generation_mw
      = round2 (generationOf sinf env a ts) := by
    simp [mkReading]
  have hcapf : (mkReading sinf env a ts).capacity = a.capacity := by
    simp [mkReading]
  rw [hgen, hcapf]
  refine ⟨round2_nonneg hb.1, ?_⟩
  have h1 : round2 (generationOf sinf env a ts)
      ≤ generationOf sinf env a ts + 1/200 := round2_le_add
  linarith [hb.2]

/-- Witness for C8 at a concrete row of a concretely generated table. -/
theorem spec_C8_witness :
    0 ≤ (mkReading sinf0 env0 karnataka 9920).generation_mw ∧
    (mkReading sinf0 env0 karnataka 9920).generation_mw
      ≤ 1.2 * (mkReading sinf0 env0 karnataka 9920).capacity :=
  spec_C8_generation_bounds sinf0 env0 20000 (fun x => by simp [sinf0])
    (fun n t => by norm_num [env0]) _ karnataka_mem_opdata

/-- C2: with no asset filter, every output row of calculate_scope1_emissions
is for a calendar date holding at least one thermal reading, and the sum of
its emissions column equals the sum of emissions_co2_tonnes over all thermal
rows of the source table. -/
theorem spec_C2_scope1_dates_and_total (df : List Reading) :
    (∀ row ∈ calculate_scope1_emissions df none,
        ∃ r ∈ df, r.asset_type = "thermal" ∧ tsDate r.timestamp = row.date) ∧
    ((calculate_scope1_emissions df none).map (fun row => row.emissions_co2_tonnes)).sum
      = ((df.filter (fun r => r.asset_type = "thermal")).map
          (fun r => r.emissions_co2_tonnes)).sum := by
  have hth : thermalRows df none = df.filter (fun r => r.asset_type = "thermal") := rfl
  constructor
  · intro row hrow
    obtain ⟨d, hd, rfl⟩ := List.mem_map.mp hrow
    obtain ⟨r, hr, hrd⟩ := mem_scope1Keys.mp hd
    obtain ⟨hrdf, -, hrth⟩ := mem_thermalRows.mp hr
    exact ⟨r, hrdf, hrth, hrd⟩
  · have hmap : (calculate_scope1_emissions df none).map (fun row => row.emissions_co2_tonnes)
        = (scope1Keys df none).map (fun d =>
            (((thermalRows df none).filter (fun r => tsDate r.timestamp = d)).map
              (fun r => r.emissions_co2_tonnes)).sum) := by
      unfold calculate_scope1_emissions scope1Group
      rw [List.map_map]
      rfl
    rw [hmap, ← hth]
    exact sum_over_groups (scope1Keys df none) (thermalRows df none)
      (fun r => tsDate r.timestamp) (fun r => r.emissions_co2_tonnes)
      nodup_scope1Keys (fun r hr => mem_scope1Keys.mpr ⟨r, hr, rfl⟩)

/-- Witness for C2 at a concrete one-row thermal table. -/
theorem spec_C2_witness :
    ((calculate_scope1_emissions tblB none).map (fun row => row.emissions_co2_tonnes)).sum
      = ((tblB.filter (fun r => r.asset_type = "thermal")).map
          (fun r => r.emissions_co2_tonnes)).sum :=
  (spec_C2_scope1_dates_and_total tblB).2

/-- C6: when the rows surviving the asset-name filter contain no thermal
row, calculate_scope1_emissions returns the empty aggregate (and in
particular does not fail: the embedding is a total function). -/
theorem spec_C6_empty_filter_empty_aggregate (df : List Reading) (filt : Option String)
    (h : ∀ r ∈ df, passesFilter filt r → r.asset_type ≠ "thermal") :
    calculate_scope1_emissions df filt = [] := by
  have ht : thermalRows df filt = [] := by
    unfold thermalRows
    rw [List.filter_eq_nil_iff]
    intro r hr
    obtain ⟨hdf, hp⟩ := mem_applyFilter.mp hr
    simpa using h r hdf hp
  unfold calculate_scope1_emissions scope1Keys
  rw [ht]
  simp [List.insertionSort]

/-- Witness for C6: a one-row solar table filtered by an absent asset name. -/
theorem spec_C6_witness : calculate_scope1_emissions tblA (some "X") = [] :=
  spec_C6_empty_filter_empty_aggregate tblA (some "X") (by decide)

/-- C7: the water-intensity aggregate has exactly one row per distinct
(calendar date, asset name) pair of the source table. -/
theorem spec_C7_water_row_count (df : List Reading) :
    (calculate_water_intensity df).length
      = (df.map (fun r => (tsDate r.timestamp, r.asset_name))).toFinset.card := by
  unfold calculate_water_intensity waterKeys
  rw [List.length_map, (List.perm_insertionSort _ _).length_eq, List.card_toFinset]

/-- Witness for C7 at a concrete one-row table. -/
theorem spec_C7_witness :
    (calculate_water_intensity tblA).length
      = (tblA.map (fun r => (tsDate r.timestamp, r.asset_name))).toFinset.card :=
  spec_C7_water_row_count tblA

/-- C9: for every table and optional asset filter, the scope-1 aggregate has
strictly increasing dates (hence exactly one row per date) and its dates are
exactly the dates of the filtered thermal rows. -/
theorem spec_C9_one_row_per_date_sorted (df : List Reading) (filt : Option String) :
    List.Sorted (· < ·) ((calculate_scope1_emissions df filt).map (fun row => row.date)) ∧
    ∀ d, (d ∈ (calculate_scope1_emissions df filt).map (fun row => row.date)
      ↔ ∃ r ∈ df, passesFilter filt r ∧ r.asset_type = "thermal"
          ∧ tsDate r.timestamp = d) := by
  rw [scope1_map_date]
  constructor
  · exact sorted_lt_of_le_nodup sorted_scope1Keys nodup_scope1Keys
  · intro d
    rw [mem_scope1Keys]
    constructor
    · rintro ⟨r, hr, hrd⟩
      obtain ⟨h1, h2, h3⟩ := mem_thermalRows.mp hr
      exact ⟨r, h1, h2, h3, hrd⟩
    · rintro ⟨r, h1, h2, h3, hrd⟩
      exact ⟨r, mem_thermalRows.mpr ⟨h1, h2, h3⟩, hrd⟩

/-- Witness for C9: the sorted-dates conclusion at a concrete table. -/
theorem spec_C9_witness :
    List.Sorted (· < ·) ((calculate_scope1_emissions tblA none).map (fun row => row.date)) :=
  (spec_C9_one_row_per_date_sorted tblA none).1

/-- C5: a (date, asset) group whose summed generation is zero yields a row
whose intensity is the NaN/infinity marker of float division; the embedding
is a total function, so no arithmetic fault is raised. -/
theorem spec_C5_zero_generation_marker (df : List Reading) (d : ℕ) (n : String)
    (hmem : (d, n) ∈ df.map (fun r => (tsDate r.timestamp, r.asset_name)))
    (hzero : ((df.filter (fun r => tsDate r.timestamp = d ∧ r.asset_name = n)).map
        (fun r => r.generation_mw)).sum = 0) :
    ∃ row ∈ calculate_water_intensity df,
      row.date = d ∧ row.asset_name = n ∧ row.water_intensity.isFinite = false := by
  have hk : (d, n) ∈ waterKeys df := by
    unfold waterKeys
    rw [(List.perm_insertionSort _ _).mem_iff, List.mem_dedup]
    exact hmem
  have hg : ((waterGroup df (d, n)).map (fun r => r.generation_mw)).sum = 0 := hzero
  refine ⟨_, List.mem_map_of_mem _ hk, rfl, rfl, ?_⟩
  dsimp only
  rw [hg]
  unfold fdiv
  rw [if_pos rfl]
  split_ifs <;> rfl

/-- Witness for C5: a one-row table whose single group has zero generation. -/
theorem spec_C5_witness :
    ∃ row ∈ calculate_water_intensity tblA,
      row.date = 0 ∧ row.asset_name = "A" ∧ row.water_intensity.isFinite = false :=
  spec_C5_zero_generation_marker tblA 0 "A" (by decide) (by simp [tblA, wrow, tsDate])

lemma waterKeys_tblB : waterKeys tblB = [(0, "Barmer Thermal")] := by
  simp [waterKeys, tblB, trow, tsDate, List.insertionSort]

lemma water_tblB_len : (calculate_water_intensity tblB).length = 1 := by
  unfold calculate_water_intensity
  rw [waterKeys_tblB]
  rfl

/-- Counterexample to C3 as stated: two calls of generate_brsr_report on the
same unmodified table differ whenever the ambient np.random.uniform(95, 100)
draws of the two calls differ (draws 95 and 96 shown here), because the
Data_Quality_Score field is freshly random on each call. -/
theorem spec_C3_counterexample :
    generate_brsr_report tblB "Q1-2024" 95 ≠ generate_brsr_report tblB "Q1-2024" 96 := by
  intro h
  simp only [generate_brsr_report] at h
  rw [water_tblB_len] at h
  norm_num at h

/-- C3 amended: the aggregator results are pure functions of the table and
the explicit random draw; in particular two calls of generate_brsr_report on
the same table agree on every field except the random data_quality_score. -/
theorem spec_C3_amended (df : List Reading) (period : String) (dq dq' : ℚ) :
    Option.map BRSRReport.core (generate_brsr_report df period dq)
      = Option.map BRSRReport.core (generate_brsr_report df period dq') := by
  simp only [generate_brsr_report]
  by_cases hc : (calculate_water_intensity df).length = 0
  · rw [if_pos hc, if_pos hc]
  · rw [if_neg hc, if_neg hc]
    rfl

/-- Witness for C3 amended at a concrete table and two distinct draws. -/
theorem spec_C3_amended_witness :
    Option.map BRSRReport.core (generate_brsr_report tblB "Q1-2024" 95)
      = Option.map BRSRReport.core (generate_brsr_report tblB "Q1-2024" 96) :=
  spec_C3_amended tblB "Q1-2024" 95 96

lemma opdata_head (sinf : ℕ → ℚ) (env : Env) :
    (operational_data sinf env 20000).head? = some (mkReading sinf env barmer 9920) := rfl

/-- C4, code side: the generated table is a function of the ambient random
draws — with an unseeded global source, two runs draw differently and
produce different tables. Environments env0 and env1 differ only in the
generation draw and already give different tables. -/
theorem spec_C4_random_dependence :
    operational_data sinf0 env0 20000 ≠ operational_data sinf0 env1 20000 := by
  intro h
  have h0 : (operational_data sinf0 env0 20000).head?
      = (operational_data sinf0 env1 20000).head? := by rw [h]
  rw [opdata_head, opdata_head] at h0
  have h1 : mkReading sinf0 env0 barmer 9920 = mkReading sinf0 env1 barmer 9920 := by
    injection h0
  have h2 : (mkReading sinf0 env0 barmer 9920).generation_mw
      = (mkReading sinf0 env1 barmer 9920).generation_mw := by rw [h1]
  have hs1 : ¬ ("thermal" : String) = "solar" := by decide
  have hs2 : ¬ ("thermal" : String) = "wind" := by decide
  have hs3 : ¬ ("thermal" : String) = "hydro" := by decide
  have g0 : generationOf sinf0 env0 barmer 9920 = 841.5 := by
    norm_num [generationOf, uniform, env0, barmer, hs1, hs2, hs3]
  have g1 : generationOf sinf0 env1 barmer 9920 = 1039.5 := by
    norm_num [generationOf, uniform, env1, env0, barmer, hs1, hs2, hs3]
  have e0 : (mkReading sinf0 env0 barmer 9920).generation_mw = 841.5 := by
    simp only [mkReading]
    rw [g0]
    unfold round2
    rw [round_eq]
    norm_num
  have e1 : (mkReading sinf0 env1 barmer 9920).generation_mw = 1039.5 := by
    simp only [mkReading]
    rw [g1]
    unfold round2
    rw [round_eq]
    norm_num
  rw [e0, e1] at h2
  norm_num at h2

/-- C10: thermal generation is at least 0.85 x 0.75 x capacity before
rounding, every thermal row and every per-date scope-1 generation sum is
strictly positive, and the emission-intensity division of
generate_brsr_report has a nonzero denominator (a finite result). -/
theorem spec_C10_thermal_positive (sinf : ℕ → ℚ) (env : Env) (now : ℕ) (he : Env.valid env) :
    (∀ a ∈ ASSETS, a.type = "thermal" →
        ∀ ts, 0.85 * (0.75 * a.capacity) ≤ generationOf sinf env a ts) ∧
    (∀ r ∈ operational_data sinf env now, r.asset_type = "thermal" → 0 < r.generation_mw) ∧
    (∀ row ∈ calculate_scope1_emissions (operational_data sinf env now) none,
        0 < row.generation_mw) ∧
    0 < ((calculate_scope1_emissions (operational_data sinf env now) none).map
        (fun row => row.generation_mw)).sum ∧
    (∀ period dq,
      Option.elim (generate_brsr_report (operational_data sinf env now) period dq)
        False (fun rep => rep.emission_intensity.isFinite = true)) := by
  have part1 : ∀ a ∈ ASSETS, a.type = "thermal" →
      ∀ ts, 0.85 * (0.75 * a.capacity) ≤ generationOf sinf env a ts := by
    intro a ha hth ts
    exact generationOf_thermal_lb sinf env a ts he hth
      (by linarith [asset_capacity_ge a ha])
  have part2 : ∀ r ∈ operational_data sinf env now,
      r.asset_type = "thermal" → 0 < r.generation_mw := by
    intro r hr hth
    obtain ⟨a, ha, ts, hts, rfl⟩ := mem_operational_data.mp hr
    have hat : a.type = "thermal" := by simpa [mkReading] using hth
    have hcap : (1:ℚ) ≤ a.capacity := asset_capacity_ge a ha
    have hlb := part1 a ha hat ts
    have hgen : (mkReading sinf env a ts).generation_mw
        = round2 (generationOf sinf env a ts) := by simp [mkReading]
    rw [hgen]
    have hsub := sub_le_round2 (x := generationOf sinf env a ts)
    linarith
  have part3 : ∀ row ∈ calculate_scope1_emissions (operational_data sinf env now) none,
      0 < row.generation_mw := by
    intro row hrow
    obtain ⟨d, hd, rfl⟩ := List.mem_map.mp hrow
    obtain ⟨r0, hr0, hr0d⟩ := mem_scope1Keys.mp hd
    have hr0g : r0 ∈ scope1Group (operational_data sinf env now) none d := by
      unfold scope1Group
      rw [List.mem_filter]
      refine ⟨hr0, ?_⟩
      simpa using hr0d
    show 0 < ((scope1Group (operational_data sinf env now) none d).map
        (fun r => r.generation_mw)).sum
    apply List.sum_pos
    · intro x hx
      obtain ⟨r', hr', rfl⟩ := List.mem_map.mp hx
      have hr'm : r' ∈ thermalRows (operational_data sinf env now) none := by
        unfold scope1Group at hr'
        exact (List.mem_filter.mp hr').1
      obtain ⟨hdf', -, hth'⟩ := mem_thermalRows.mp hr'm
      exact part2 r' hdf' hth'
    · exact List.ne_nil_of_mem (List.mem_map_of_mem _ hr0g)
  have hts1 : (now - 10080 + 15 * 0) ∈ timestamps now := by
    unfold timestamps
    exact List.mem_map_of_mem _ (List.mem_range.mpr (by norm_num))
  have hr1 : mkReading sinf env barmer (now - 10080 + 15 * 0)
      ∈ operational_data sinf env now :=
    mem_operational_data.mpr ⟨barmer, by simp [ASSETS], _, hts1, rfl⟩
  have hr1th : (mkReading sinf env barmer (now - 10080 + 15 * 0)).asset_type = "thermal" := by
    simp [mkReading, barmer]
  have hr1m : mkReading sinf env barmer (now - 10080 + 15 * 0)
      ∈ thermalRows (operational_data sinf env now) none :=
    mem_thermalRows.mpr ⟨hr1, trivial, hr1th⟩
  have hd1 : tsDate (mkReading sinf env barmer (now - 10080 + 15 * 0)).timestamp
      ∈ scope1Keys (operational_data sinf env now) none :=
    mem_scope1Keys.mpr ⟨_, hr1m, rfl⟩
  have part4 : 0 < ((calculate_scope1_emissions (operational_data sinf env now) none).map
      (fun row => row.generation_mw)).sum := by
    apply List.sum_pos
    · intro x hx
      obtain ⟨row, hrow, rfl⟩ := List.mem_map.mp hx
      exact part3 row hrow
    · apply List.ne_nil_of_mem
      apply List.mem_map_of_mem
      exact List.mem_map_of_mem _ hd1
  refine ⟨part1, part2, part3, part4, ?_⟩
  intro period dq
  have hlen : ¬ (calculate_water_intensity (operational_data sinf env now)).length = 0 := by
    unfold calculate_water_intensity
    rw [List.length_map, List.length_eq_zero]
    apply List.ne_nil_of_mem
    unfold waterKeys
    rw [(List.perm_insertionSort _ _).mem_iff, List.mem_dedup]
    exact List.mem_map_of_mem _ hr1
  have hG : ((calculate_scope1_emissions (operational_data sinf env now) none).map
      (fun row => row.generation_mw)).sum ≠ 0 := ne_of_gt part4
  simp only [generate_brsr_report]
  rw [if_neg hlen]
  simp only [Option.elim]
  unfold fdiv
  rw [if_neg hG]
  rfl

/-- Witness for C10: the positive total-generation denominator at a concrete
valid environment. -/
theorem spec_C10_witness :
    0 < ((calculate_scope1_emissions (operational_data sinf0 env0 20000) none).map
        (fun row => row.generation_mw)).sum :=
  (spec_C10_thermal_positive sinf0 env0 20000 (fun n t => by norm_num [env0])).2.2.2.1

end CarbonSense
